import Mathlib

/-!
Shallow embedding of `simplehealth.go` (package simplehealth).

Modelling conventions:
* Go `float64` values are modelled as `ℚ`.  Every comparison the claims
  exercise is exact at the relevant boundary in binary64 (0.8 = 1.6/2,
  100*0.9 = 90.0 round to the same floats the rational model denotes),
  so the rational model agrees with the Go float semantics there.
* A fallible Go call `(T, error)` is modelled as `Except String T`
  (the `String` is the error message).
* A check `func() error` reads live OS state; we make that state explicit
  as a `Snapshot` argument, so a check is `Snapshot → Option String`
  (`none` = `nil` error, `some msg` = failure).
* gopsutil's `RlimitStat.Soft` and `Statfs_t.Files/Ffree` are `uint64`;
  we model them as `Nat` and reproduce the `uint64` wrap-around of
  `Files - Ffree` explicitly with `emod (2^64)`.
-/

deriving instance DecidableEq for Except

namespace SimpleHealthModel

/-- Does `hay` start with `needle`? -/
def subAt : List Char → List Char → Bool
  | [], _ => true
  | _ :: _, [] => false
  | a :: as, b :: bs => a == b && subAt as bs

/-- Does `needle` occur contiguously somewhere in `hay`? -/
def hasSub (needle : List Char) : List Char → Bool
  | [] => needle.isEmpty
  | b :: bs => subAt needle (b :: bs) || hasSub needle bs

/-- Substring containment, modelling Go `strings.Contains hay needle`
(argument order here: needle first). -/
def containsSub (needle hay : String) : Bool :=
  hasSub needle.data hay.data

/-- Go constant `maxLoad = 0.8`. -/
def maxLoad : ℚ := 8/10

/-- Go constant `maxOpenFilesPerc = 0.9`. -/
def maxOpenFilesPerc : ℚ := 9/10

/-- Go constant `maxDiskPerc = 0.9`. -/
def maxDiskPerc : ℚ := 9/10

/-- One entry of gopsutil's process list, with the per-process lookups the
check performs folded in as fields (each lookup may fail independently). -/
structure Process where
  pid : Int
  /-- `p.Username()`, best effort: on error the Go code uses the zero
  string, so we store the string the code ends up using. -/
  user : String
  /-- `p.Name()`, best effort likewise. -/
  name : String
  /-- `p.Rlimit()[syscall.RLIMIT_NOFILE].Soft` (uint64), or the error. -/
  rlimitSoft : Except String Nat
  /-- `p.NumFDs()`, or the error. -/
  numFDs : Except String Nat
  deriving Repr, DecidableEq

/-- One entry of `disk.Partitions(false)`, with the per-mountpoint lookups
(`disk.Usage`, `syscall.Statfs`) folded in as fields. -/
structure Partition where
  device : String
  mountpoint : String
  /-- `disk.Usage(mountpoint).UsedPercent`, or the error. -/
  usedPercent : Except String ℚ
  /-- `syscall.Statfs(mountpoint)`: `(Files, Ffree)`, or the error. -/
  statfs : Except String (Nat × Nat)
  deriving Repr, DecidableEq

/-- The OS state one run of the checks observes. -/
structure Snapshot where
  /-- `load.Avg().Load5`, or the error. -/
  load5 : Except String ℚ
  /-- `runtime.NumCPU()`. -/
  numCPU : Nat
  /-- `process.Processes()`, or the error. -/
  processes : Except String (List Process)
  /-- `disk.Partitions(false)`, or the error. -/
  partitions : Except String (List Partition)
  deriving Repr, DecidableEq

/-- `CheckLoad`: fail when `Load5 / NumCPU > maxLoad`; a load-average read
error is itself the failure. -/
def CheckLoad (s : Snapshot) : Option String :=
  match s.load5 with
  | .error e => some e
  | .ok avg =>
    let got := avg / (s.numCPU : ℚ)
    if got > maxLoad then
      some ("high load5 per cpu: " ++ toString got)
    else
      none

/-- The `pname` label `fmt.Sprintf("%d/%s/%s", p.Pid, user, name)`. -/
def pname (p : Process) : String :=
  toString p.pid ++ "/" ++ p.user ++ "/" ++ p.name

/-- The failure message of `CheckOpenFiles` for process `p` at usage
`usage` (`int(usage*100)` truncates; usage is positive here, so it is the
floor). -/
def fdMessage (p : Process) (usage : ℚ) : String :=
  pname p ++ " uses " ++ toString ⌊usage * 100⌋ ++
    "% open files, are we growing too fast?"

/-- The per-process loop body of `CheckOpenFiles`, over the enumerated
process list. -/
def checkOpenFilesList : List Process → Option String
  | [] => none
  | p :: rest =>
    match p.rlimitSoft with
    | .error _ => checkOpenFilesList rest
    | .ok softLimit =>
      if softLimit ≤ 0 then
        -- Skip processes with no file limits
        checkOpenFilesList rest
      else if softLimit < 1024 && p.user == "root" then
        -- dodge the sshd limit-of-1 edge case
        checkOpenFilesList rest
      else
        match p.numFDs with
        | .error _ => checkOpenFilesList rest
        | .ok cur =>
          if cur == 0 then
            checkOpenFilesList rest
          else
            let usage : ℚ := (cur : ℚ) / (softLimit : ℚ)
            if usage > maxOpenFilesPerc then
              some (fdMessage p usage)
            else
              checkOpenFilesList rest

/-- `CheckOpenFiles`: a failed process enumeration is itself the failure;
otherwise scan the processes. -/
def CheckOpenFiles (s : Snapshot) : Option String :=
  match s.processes with
  | .error e => some e
  | .ok ps => checkOpenFilesList ps

/-- The exclusion test of `CheckDisk`'s loop (the order of the `||`
operands is the source's). -/
def diskExcluded (part : Partition) : Bool :=
  containsSub "loop" part.device || containsSub "/snap/" part.mountpoint ||
    containsSub "/boot" part.mountpoint || containsSub "devfs" part.device

/-- Go `fmt`'s `%.0f` of a (non-tie) rational: round to nearest integer.
(`%.0f` breaks exact ties to even; no value in this development is a tie.) -/
def fmt0f (q : ℚ) : Int := round q

/-- The byte-usage failure message `"disk %s bytes %.0f%% full"`. -/
def diskBytesMessage (mountpoint : String) (usedPercent : ℚ) : String :=
  "disk " ++ mountpoint ++ " bytes " ++ toString (fmt0f usedPercent) ++ "% full"

/-- The inode failure message `"disk %s inodes %.0f%% full"`. -/
def diskInodesMessage (mountpoint : String) (percInodes : ℚ) : String :=
  "disk " ++ mountpoint ++ " inodes " ++ toString (fmt0f percInodes) ++ "% full"

/-- The uint64 difference `Files - Ffree` (wraps modulo `2^64`). -/
def inodesUsed (files ffree : Nat) : Nat :=
  ((((files : Int) - (ffree : Int)) % (2 ^ 64)).toNat)

/-- The per-partition loop body of `CheckDisk`. -/
def checkDiskList : List Partition → Option String
  | [] => none
  | part :: rest =>
    if diskExcluded part then
      checkDiskList rest
    else
      match part.usedPercent with
      | .error _ => checkDiskList rest
      | .ok used =>
        if used ≥ 100 * maxDiskPerc then
          some (diskBytesMessage part.mountpoint used)
        else
          match part.statfs with
          | .error _ => checkDiskList rest
          | .ok (files, ffree) =>
            if files > 0 then
              let percInodes : ℚ :=
                100 * (inodesUsed files ffree : ℚ) / (files : ℚ)
              if percInodes ≥ 100 * maxDiskPerc then
                some (diskInodesMessage part.mountpoint percInodes)
              else
                checkDiskList rest
            else
              checkDiskList rest

/-- `CheckDisk`: a failed partition enumeration is itself the failure;
otherwise scan the partitions. -/
def CheckDisk (s : Snapshot) : Option String :=
  match s.partitions with
  | .error e => some e
  | .ok parts => checkDiskList parts

/-- A check, as the engine sees it: `func() error` with the ambient OS
state made explicit. -/
def Check : Type := Snapshot → Option String

/-- The package-level `defaultChecks` slice, in source order. -/
def defaultChecks : List Check := [CheckOpenFiles, CheckDisk, CheckLoad]

/-- `SimpleHealth.Run`, given the per-check results in the order they
arrive on the result channel (concurrent completion order is arbitrary;
theorems quantify over every permutation of the dispatched checks' results).
Collects exactly the non-nil errors. -/
def Run (arrived : List (Option String)) : List String :=
  arrived.filterMap id

/-- The observable part of the HTTP response `SimpleHealth.Handler` writes. -/
structure Response where
  statusCode : Nat
  statusTag : String
  messages : List String
  deriving Repr, DecidableEq

/-- `SimpleHealth.Handler`, as a function of the failure list `Run`
returned: non-empty ⇒ 500 / "MUCHSAD" / the messages; empty ⇒
200 / "VERYHAPPY" / no messages. -/
def Handler (errs : List String) : Response :=
  if errs.length > 0 then
    { statusCode := 500, statusTag := "MUCHSAD", messages := errs }
  else
    { statusCode := 200, statusTag := "VERYHAPPY", messages := [] }

/-- The stat loop of `AgeOfNewestFile`: fold the newest modification time,
aborting on the first stat error.  `newest` starts at Go's zero
`time.Time`, modelled as time `0` (all mod times are taken nonnegative). -/
def newestModTime : List (Except String Int) → Int → Except String Int
  | [], newest => .ok newest
  | f :: rest, newest =>
    match f with
    | .error e => .error e
    | .ok t => newestModTime rest (if t > newest then t else newest)

/-- `AgeOfNewestFile`: `files` is the glob result (or its error), each
entry the `os.Stat` mod time of one matched file (or its error), `now`
the current time; times are in hours, the age is in days.  Returns the
Go pair `(float64, error)`. -/
def AgeOfNewestFile (pattern : String)
    (files : Except String (List (Except String Int))) (now : Int) :
    ℚ × Option String :=
  match files with
  | .error e => (0, some e)
  | .ok fs =>
    if fs.length = 0 then
      (0, some ("no files found at " ++ pattern))
    else
      match newestModTime fs 0 with
      | .error e => (0, some e)
      | .ok newest => (((now : ℚ) - (newest : ℚ)) / 24, none)

/-- A snapshot with the given load-average reading and CPU count and no
processes or partitions (fixture for the load-check theorems). -/
def loadSnap (l : Except String ℚ) (c : Nat) : Snapshot :=
  { load5 := l, numCPU := c, processes := .ok [], partitions := .ok [] }

/-- The decision `CheckOpenFiles`'s loop body takes for a single process:
`none` when the process is skipped or within limits, `some msg` when it
makes the check fail.  `checkOpenFilesList` is exactly the first `some`
of this function over the list (proved below). -/
def processOutcome (p : Process) : Option String :=
  match p.rlimitSoft with
  | .error _ => none
  | .ok softLimit =>
    if softLimit ≤ 0 then none
    else if softLimit < 1024 && p.user == "root" then none
    else
      match p.numFDs with
      | .error _ => none
      | .ok cur =>
        if cur == 0 then none
        else
          let usage : ℚ := (cur : ℚ) / (softLimit : ℚ)
          if usage > maxOpenFilesPerc then some (fdMessage p usage) else none

/-- The decision `CheckDisk`'s loop body takes for a single partition. -/
def partitionOutcome (part : Partition) : Option String :=
  if diskExcluded part then none
  else
    match part.usedPercent with
    | .error _ => none
    | .ok used =>
      if used ≥ 100 * maxDiskPerc then
        some (diskBytesMessage part.mountpoint used)
      else
        match part.statfs with
        | .error _ => none
        | .ok (files, ffree) =>
          if files > 0 then
            let percInodes : ℚ :=
              100 * (inodesUsed files ffree : ℚ) / (files : ℚ)
            if percInodes ≥ 100 * maxDiskPerc then
              some (diskInodesMessage part.mountpoint percInodes)
            else none
          else none

lemma checkOpenFilesList_cons (p : Process) (rest : List Process) :
    checkOpenFilesList (p :: rest) =
      match processOutcome p with
      | some m => some m
      | none => checkOpenFilesList rest := by
  simp only [checkOpenFilesList, processOutcome]
  cases p.rlimitSoft with
  | error e => rfl
  | ok n =>
    by_cases h0 : n ≤ 0
    · simp [h0]
    · simp only [if_neg h0]
      by_cases h1 : (n < 1024 && (p.user == "root")) = true
      · simp [h1]
      · simp only [Bool.not_eq_true] at h1
        simp only [h1, Bool.false_eq_true, if_false]
        cases p.numFDs with
        | error e => rfl
        | ok cur =>
          by_cases h2 : (cur == 0) = true
          · simp [h2]
          · simp only [Bool.not_eq_true] at h2
            simp only [h2, Bool.false_eq_true, if_false]
            by_cases h3 : ((cur : ℚ) / (n : ℚ)) > maxOpenFilesPerc
            · simp [h3]
            · simp [h3]

lemma checkOpenFilesList_eq_findSome (ps : List Process) :
    checkOpenFilesList ps = ps.findSome? processOutcome := by
  induction ps with
  | nil => rfl
  | cons p rest ih =>
    rw [checkOpenFilesList_cons, List.findSome?_cons]
    cases processOutcome p <;> simp [ih]

lemma checkDiskList_cons (part : Partition) (rest : List Partition) :
    checkDiskList (part :: rest) =
      match partitionOutcome part with
      | some m => some m
      | none => checkDiskList rest := by
  simp only [checkDiskList, partitionOutcome]
  by_cases hex : diskExcluded part = true
  · simp [hex]
  · simp only [Bool.not_eq_true] at hex
    simp only [hex, Bool.false_eq_true, if_false]
    cases part.usedPercent with
    | error e => rfl
    | ok used =>
      by_cases hu : used ≥ 100 * maxDiskPerc
      · simp [hu]
      · simp only [if_neg hu]
        cases hst : part.statfs with
        | error e => rfl
        | ok pr =>
          obtain ⟨files, ffree⟩ := pr
          by_cases hf : files > 0
          · simp only [if_pos hf]
            by_cases hi : 100 * (inodesUsed files ffree : ℚ) / (files : ℚ) ≥ 100 * maxDiskPerc
            · simp [hi]
            · simp [hi]
          · simp [hf]

lemma checkDiskList_eq_findSome (parts : List Partition) :
    checkDiskList parts = parts.findSome? partitionOutcome := by
  induction parts with
  | nil => rfl
  | cons part rest ih =>
    rw [checkDiskList_cons, List.findSome?_cons]
    cases partitionOutcome part <;> simp [ih]

lemma length_filterMap_id (l : List (Option String)) :
    (l.filterMap id).length = (l.filter Option.isSome).length := by
  induction l with
  | nil => rfl
  | cons a t ih => cases a <;> simp [ih]

lemma newestModTime_first_error (pre post : List (Except String Int)) (e : String)
    (hpre : ∀ f ∈ pre, ∃ t, f = Except.ok t) :
    ∀ newest : Int, newestModTime (pre ++ Except.error e :: post) newest = .error e := by
  induction pre with
  | nil => intro newest; rfl
  | cons f rest ih =>
    intro newest
    obtain ⟨t, ht⟩ := hpre f (by simp)
    rw [List.cons_append, ht]
    exact ih (fun g hg => hpre g (by simp [hg])) _

/-- C1: `Run` executes every registered check (each contributes exactly one
result to the channel; the arrival order is an arbitrary permutation of the
dispatched checks' results) and returns exactly the non-nil failures: a
permutation-invariant set, empty when all checks pass, and of size K when
exactly K of the N checks fail.  `Run` itself has no error return. -/
theorem run_collects_failures (checks arrived : List (Option String))
    (h : arrived.Perm checks) :
    (Run arrived).Perm (checks.filterMap id) ∧
    ((∀ c ∈ checks, c = none) → Run arrived = []) ∧
    (Run arrived).length = (checks.filter Option.isSome).length := by
  have hperm : (Run arrived).Perm (checks.filterMap id) := h.filterMap id
  refine ⟨hperm, ?_, ?_⟩
  · intro hall
    have hnil : checks.filterMap id = [] := by
      rw [List.filterMap_eq_nil_iff]
      intro a ha
      simp [hall a ha]
    rw [hnil] at hperm
    exact hperm.eq_nil
  · rw [hperm.length_eq, length_filterMap_id]

/-- Witness for C1: three checks of which two fail, arriving in a different
order than they were dispatched. -/
theorem run_collects_failures_witness :
    (Run [none, some "b", some "a"]).Perm
      (([some "a", none, some "b"] : List (Option String)).filterMap id) ∧
    ((∀ c ∈ ([some "a", none, some "b"] : List (Option String)), c = none) →
      Run [none, some "b", some "a"] = []) ∧
    (Run [none, some "b", some "a"]).length =
      (([some "a", none, some "b"] : List (Option String)).filter Option.isSome).length :=
  run_collects_failures [some "a", none, some "b"] [none, some "b", some "a"] (by decide)

/-- C2 counterexample: the default registry is NOT `[load, descriptors,
disk]` as the claim orders it — the source registers
`[CheckOpenFiles, CheckDisk, CheckLoad]`.  The head functions differ:
on a snapshot whose load average read fails, `CheckLoad` fails and
`CheckOpenFiles` passes. -/
theorem defaultChecks_claim_order_false :
    defaultChecks ≠ [CheckLoad, CheckOpenFiles, CheckDisk] := by
  intro h
  have h0 : CheckOpenFiles = CheckLoad := by
    have hh := congrArg (fun l => l.headD CheckLoad) h
    simpa [defaultChecks] using hh
  have hc := congrFun h0
    { load5 := .error "boom", numCPU := 1, processes := .ok [], partitions := .ok [] }
  simp [CheckOpenFiles, CheckLoad, checkOpenFilesList] at hc

/-- C2 amended: the default registry contains exactly the three built-in
checks, registered in the order descriptor usage, disk/inode usage, load. -/
theorem defaultChecks_amended :
    defaultChecks = [CheckOpenFiles, CheckDisk, CheckLoad] ∧
    defaultChecks.length = 3 :=
  ⟨rfl, rfl⟩

/-- C3: the load check fails exactly when `Load5 / NumCPU` strictly exceeds
`maxLoad = 0.8`; a per-CPU load equal to 0.8 passes, and one of 0.75
passes. -/
theorem checkLoad_threshold (s : Snapshot) (avg : ℚ)
    (hload : s.load5 = Except.ok avg) (hcpu : 0 < s.numCPU) :
    ((CheckLoad s).isSome ↔ avg / (s.numCPU : ℚ) > maxLoad) ∧
    (avg / (s.numCPU : ℚ) = 8/10 → CheckLoad s = none) ∧
    (avg / (s.numCPU : ℚ) = 3/4 → CheckLoad s = none) := by
  refine ⟨?_, ?_, ?_⟩
  · simp only [CheckLoad, hload]
    by_cases h : avg / (s.numCPU : ℚ) > maxLoad
    · simp [h]
    · simp [h]
  · intro heq
    simp only [CheckLoad, hload]
    rw [if_neg]
    rw [heq, maxLoad]
    norm_num
  · intro heq
    simp only [CheckLoad, hload]
    rw [if_neg]
    rw [heq, maxLoad]
    norm_num

/-- Witness for C3: load 2.0 on 1 CPU fails (2 > 0.8). -/
theorem checkLoad_threshold_witness :
    ((CheckLoad (loadSnap (.ok 2) 1)).isSome ↔
      (2 : ℚ) / (((loadSnap (.ok 2) 1).numCPU : Nat) : ℚ) > maxLoad) ∧
    ((2 : ℚ) / (((loadSnap (.ok 2) 1).numCPU : Nat) : ℚ) = 8/10 →
      CheckLoad (loadSnap (.ok 2) 1) = none) ∧
    ((2 : ℚ) / (((loadSnap (.ok 2) 1).numCPU : Nat) : ℚ) = 3/4 →
      CheckLoad (loadSnap (.ok 2) 1) = none) :=
  checkLoad_threshold (loadSnap (.ok 2) 1) 2 rfl (by decide)

/-- C4 counterexample: with a 5-minute load average of 1.6 on 2 CPUs
(per-CPU exactly 0.8), the load check does NOT fail — `0.8 > 0.8` is
false, so the claim that it fails is wrong. -/
theorem checkLoad_boundary_claim_false :
    CheckLoad (loadSnap (.ok (8/5)) 2) = none := by
  simp [CheckLoad, loadSnap, maxLoad]
  norm_num

/-- C4 amended: given a 5-minute load average of 1.6 and a CPU count of 2,
the per-CPU load is exactly the 0.8 threshold and the load check passes
(the boundary is exclusive). -/
theorem checkLoad_boundary_amended :
    (8/5 : ℚ) / ((2 : Nat) : ℚ) = maxLoad ∧
    CheckLoad (loadSnap (.ok (8/5)) 2) = none := by
  constructor
  · rw [maxLoad]; norm_num
  · simp [CheckLoad, loadSnap, maxLoad]
    norm_num

lemma processOutcome_none_of_fds (p : Process)
    (hfds : ∀ cur, p.numFDs = Except.ok cur → cur = 0) :
    processOutcome p = none := by
  unfold processOutcome
  cases hs : p.rlimitSoft with
  | error e => rfl
  | ok n =>
    by_cases h0 : n ≤ 0
    · simp [h0]
    · simp only [if_neg h0]
      by_cases h1 : (n < 1024 && (p.user == "root")) = true
      · simp [h1]
      · simp only [Bool.not_eq_true] at h1
        simp only [h1, Bool.false_eq_true, if_false]
        cases hf : p.numFDs with
        | error e => rfl
        | ok cur => simp [hfds cur hf]

/-- C5: the descriptor check skips (never fails on) a process whose soft
descriptor limit is zero (negative is unrepresentable: the limit is a
uint64), or whose soft limit is below 1024 while its owning user is
"root" (regardless of descriptor count), or whose current descriptor
count is unreadable or exactly zero. -/
theorem checkOpenFiles_skip_rules (p : Process) (rest : List Process)
    (h : p.rlimitSoft = Except.ok 0 ∨
      ((∃ n, p.rlimitSoft = Except.ok n ∧ n < 1024) ∧ p.user = "root") ∨
      (∃ e, p.numFDs = Except.error e) ∨ p.numFDs = Except.ok 0) :
    checkOpenFilesList (p :: rest) = checkOpenFilesList rest := by
  rw [checkOpenFilesList_cons]
  suffices hp : processOutcome p = none by rw [hp]
  rcases h with h | ⟨⟨n, hn, hlt⟩, hroot⟩ | ⟨e, he⟩ | h
  · simp [processOutcome, h]
  · simp only [processOutcome, hn]
    by_cases h0 : n ≤ 0
    · simp [h0]
    · simp [h0, hlt, hroot]
  · exact processOutcome_none_of_fds p (fun cur hcur => by simp [he] at hcur)
  · exact processOutcome_none_of_fds p (fun cur hcur => by
      rw [h] at hcur
      exact (Except.ok.inj hcur).symm)

/-- Witness for C5: a root-owned process with soft limit 1 and a huge
descriptor count is skipped. -/
theorem checkOpenFiles_skip_rules_witness :
    checkOpenFilesList [⟨1, "root", "sshd", .ok 1, .ok 999999⟩] =
      checkOpenFilesList [] :=
  checkOpenFiles_skip_rules ⟨1, "root", "sshd", .ok 1, .ok 999999⟩ []
    (Or.inr (Or.inl ⟨⟨1, rfl, by decide⟩, rfl⟩))

/-- A fixture process for the descriptor-threshold theorems: pid 42, user
"bob", name "srv", soft limit 1000, the given descriptor count. -/
def fdProc (cur : Nat) : Process :=
  ⟨42, "bob", "srv", .ok 1000, .ok cur⟩

/-- C6: the descriptor check fails on the first enumerated non-skipped
process whose usage strictly exceeds `maxOpenFilesPerc = 0.9` — the scan
is the first `some` of the per-process decision, so nothing after the
first offender is consulted — with the `pid/user/name` + percentage
message; usage exactly 0.9 (900 of 1000) passes. -/
theorem checkOpenFiles_first_offender :
    (∀ ps : List Process, checkOpenFilesList ps = ps.findSome? processOutcome) ∧
    (∀ (p : Process) (n cur : Nat), p.rlimitSoft = Except.ok n → 0 < n →
      ¬(n < 1024 ∧ p.user = "root") → p.numFDs = Except.ok cur → 0 < cur →
      processOutcome p =
        if (cur : ℚ) / (n : ℚ) > maxOpenFilesPerc
        then some (fdMessage p ((cur : ℚ) / (n : ℚ))) else none) ∧
    checkOpenFilesList [fdProc 950, fdProc 999] =
      some "42/bob/srv uses 95% open files, are we growing too fast?" ∧
    checkOpenFilesList [fdProc 900] = none := by
  refine ⟨checkOpenFilesList_eq_findSome, ?_, ?_, ?_⟩
  · intro p n cur hn hpos hnot hcur hcpos
    simp only [processOutcome, hn, hcur]
    rw [if_neg (by omega : ¬ n ≤ 0)]
    rw [if_neg (by simpa [Bool.and_eq_true, decide_eq_true_eq] using hnot)]
    rw [if_neg (by simpa using Nat.pos_iff_ne_zero.mp hcpos)]
  · rw [checkOpenFilesList_cons]
    have hp : processOutcome (fdProc 950) =
        some "42/bob/srv uses 95% open files, are we growing too fast?" := by
      simp [processOutcome, fdProc, maxOpenFilesPerc, fdMessage, pname]
      refine ⟨by norm_num, ?_⟩
      norm_num
      rfl
    rw [hp]
  · simp [checkOpenFilesList, fdProc, maxOpenFilesPerc]
    norm_num

/-- Witness for C6: the non-skipped process 42/bob/srv at 950 of 1000
descriptors is handled by the threshold rule. -/
theorem checkOpenFiles_first_offender_witness :
    processOutcome (fdProc 950) =
      (if ((950 : Nat) : ℚ) / ((1000 : Nat) : ℚ) > maxOpenFilesPerc
       then some (fdMessage (fdProc 950) (((950 : Nat) : ℚ) / ((1000 : Nat) : ℚ)))
       else none) :=
  checkOpenFiles_first_offender.2.1 (fdProc 950) 1000 950 rfl (by decide)
    (by decide) rfl (by decide)

/-- C7: the disk check never evaluates a partition whose device contains
"loop" or "devfs" or whose mountpoint contains "/snap/" or "/boot":
the partition is skipped whole, whatever its usage and inode fields. -/
theorem checkDisk_exclusions (part : Partition) (rest : List Partition)
    (h : containsSub "loop" part.device = true ∨
      containsSub "devfs" part.device = true ∨
      containsSub "/snap/" part.mountpoint = true ∨
      containsSub "/boot" part.mountpoint = true) :
    checkDiskList (part :: rest) = checkDiskList rest := by
  rw [checkDiskList_cons]
  suffices hp : partitionOutcome part = none by rw [hp]
  have hex : diskExcluded part = true := by
    unfold diskExcluded
    rcases h with h | h | h | h <;> simp [h]
  simp [partitionOutcome, hex]

/-- Witness for C7: a 100%-full partition mounted under /boot is skipped. -/
theorem checkDisk_exclusions_witness :
    checkDiskList [⟨"/dev/sda2", "/boot/efi", .ok 100, .ok (100, 0)⟩] =
      checkDiskList [] :=
  checkDisk_exclusions ⟨"/dev/sda2", "/boot/efi", .ok 100, .ok (100, 0)⟩ []
    (Or.inr (Or.inr (Or.inr (by decide))))

lemma inodesUsed_cast (files ffree : Nat) (h1 : ffree ≤ files)
    (h2 : files < 2 ^ 64) :
    ((inodesUsed files ffree : ℚ)) = (files : ℚ) - (ffree : ℚ) := by
  unfold inodesUsed
  have h3 : (0 : Int) ≤ (files : Int) - (ffree : Int) := by omega
  have h4 : (files : Int) - (ffree : Int) < 2 ^ 64 := by omega
  rw [Int.emod_eq_of_lt h3 h4]
  have h5 : ((files : Int) - (ffree : Int)).toNat = files - ffree := by omega
  rw [h5, Nat.cast_sub h1]

/-- A fixture partition for the disk-threshold theorems: device /dev/sda1
mounted at /, the given byte used-percentage and (total, free) inodes. -/
def diskPart (used : ℚ) (files ffree : Nat) : Partition :=
  ⟨"/dev/sda1", "/", .ok used, .ok (files, ffree)⟩

/-- C8: on a non-excluded partition the disk check fails with the
mountpoint + percentage message when the byte used-percentage is ≥ 90
(inclusive: exactly 90.0 fails, 89.9 passes); otherwise, with a non-zero
total inode count, it fails when `(total − free) / total * 100 ≥ 90`;
and the scan is the first `some` of the per-partition decision, so it
returns on the first offending partition. -/
theorem checkDisk_thresholds :
    (∀ parts : List Partition, checkDiskList parts = parts.findSome? partitionOutcome) ∧
    (∀ (part : Partition) (used : ℚ), diskExcluded part = false →
      part.usedPercent = Except.ok used → used ≥ 90 →
      partitionOutcome part = some (diskBytesMessage part.mountpoint used)) ∧
    (∀ (part : Partition) (used : ℚ) (files ffree : Nat),
      diskExcluded part = false → part.usedPercent = Except.ok used →
      used < 90 → part.statfs = Except.ok (files, ffree) → 0 < files →
      ffree ≤ files → files < 2 ^ 64 →
      (100 * ((files : ℚ) - (ffree : ℚ)) / (files : ℚ) ≥ 90 →
        partitionOutcome part = some (diskInodesMessage part.mountpoint
          (100 * ((files : ℚ) - (ffree : ℚ)) / (files : ℚ)))) ∧
      (100 * ((files : ℚ) - (ffree : ℚ)) / (files : ℚ) < 90 →
        partitionOutcome part = none)) ∧
    checkDiskList [diskPart 90 100 100] = some (diskBytesMessage "/" 90) ∧
    checkDiskList [diskPart (899/10) 100 100] = none := by
  have hmax : 100 * maxDiskPerc = 90 := by rw [maxDiskPerc]; norm_num
  refine ⟨checkDiskList_eq_findSome, ?_, ?_, ?_, ?_⟩
  · intro part used hex hu hge
    simp only [partitionOutcome, hex, Bool.false_eq_true, if_false, hu, hmax]
    rw [if_pos hge]
  · intro part used files ffree hex hu hlt hst hf h1 h2
    have hcast := inodesUsed_cast files ffree h1 h2
    constructor
    · intro hge
      simp only [partitionOutcome, hex, Bool.false_eq_true, if_false, hu, hmax]
      rw [if_neg (not_le.mpr hlt), hst]
      simp only [if_pos hf, hcast]
      rw [if_pos hge]
    · intro hlt2
      simp only [partitionOutcome, hex, Bool.false_eq_true, if_false, hu, hmax]
      rw [if_neg (not_le.mpr hlt), hst]
      simp only [if_pos hf, hcast]
      rw [if_neg (not_le.mpr hlt2)]
  · simp [checkDiskList, diskPart, diskExcluded, containsSub, hasSub, subAt, maxDiskPerc]
    norm_num
  · simp [checkDiskList, diskPart, diskExcluded, containsSub, hasSub, subAt,
      maxDiskPerc, inodesUsed]
    norm_num

/-- Witness for C8: the fixture partition at exactly 90.0% bytes used
fails with the bytes message. -/
theorem checkDisk_thresholds_witness :
    partitionOutcome (diskPart 90 100 100) =
      some (diskBytesMessage (diskPart 90 100 100).mountpoint 90) :=
  checkDisk_thresholds.2.1 (diskPart 90 100 100) 90 (by decide) rfl (by norm_num)

/-- C9: the reporter maps an empty failure set from `Run` to a
200/"VERYHAPPY" response with no messages, and a non-empty failure set
to a 500/"MUCHSAD" response whose message list is exactly the failures
`Run` returned. -/
theorem handler_maps_failures (arrived : List (Option String)) :
    (Run arrived = [] →
      Handler (Run arrived) = ⟨200, "VERYHAPPY", []⟩) ∧
    (Run arrived ≠ [] →
      (Handler (Run arrived)).statusCode = 500 ∧
      (Handler (Run arrived)).statusTag = "MUCHSAD" ∧
      (Handler (Run arrived)).messages = Run arrived) := by
  constructor
  · intro h
    rw [h]
    rfl
  · intro h
    have hlen : (Run arrived).length > 0 := List.length_pos.mpr h
    simp [Handler, hlen]

/-- Witness for C9: one failing check yields the 500/"MUCHSAD" response
carrying exactly that failure message. -/
theorem handler_maps_failures_witness :
    (Handler (Run [some "x", none])).statusCode = 500 ∧
    (Handler (Run [some "x", none])).statusTag = "MUCHSAD" ∧
    (Handler (Run [some "x", none])).messages = Run [some "x", none] :=
  (handler_maps_failures [some "x", none]).2 (by decide)

/-- C10: if any file matched by the glob pattern cannot be statted, the
whole call returns that stat error with age 0, whatever the remaining
matched files hold. -/
theorem ageOfNewestFile_stat_error (pattern : String) (now : Int)
    (pre post : List (Except String Int)) (e : String)
    (hpre : ∀ f ∈ pre, ∃ t, f = Except.ok t) :
    AgeOfNewestFile pattern (.ok (pre ++ Except.error e :: post)) now =
      (0, some e) := by
  simp only [AgeOfNewestFile]
  rw [if_neg (by simp : ¬(pre ++ Except.error e :: post).length = 0)]
  rw [newestModTime_first_error pre post e hpre 0]

/-- Witness for C10: two stattable files around one failing stat — the
call returns the stat error and age 0. -/
theorem ageOfNewestFile_stat_error_witness :
    AgeOfNewestFile "/var/log/app*"
      (.ok [Except.ok 10, Except.error "statfail", Except.ok 20]) 100 =
      (0, some "statfail") :=
  ageOfNewestFile_stat_error "/var/log/app*" 100 [Except.ok 10] [Except.ok 20]
    "statfail" (by
      intro f hf
      rw [List.mem_singleton] at hf
      exact ⟨10, hf⟩)

end SimpleHealthModel
